import Mathlib

/-!
Shallow embedding of the LiveView client connection manager from
`src/web/static/app.js` (the adopted revision; an earlier, simpler revision
lives in `src/unnamed/part_000`).

Modelling conventions:

* The module-level mutable variables of `app.js` (`window.ws`, `isConnecting`,
  `connectionAttempts`, `isOfflineMode`, `window.fullPageReplacement`) become
  fields of `SupState`.  A live `WebSocket` is represented by its
  `readyState`; `window.ws = null` is `none`.
* `setTimeout(connect, delay)` callbacks that have been scheduled but have not
  fired yet are counted by `pendingTimers`; the REST polling loops started by
  `startRestApiPolling` are counted by `pollLoops`.  The concrete delay values
  are irrelevant to the ordering-free properties proved here.
* Browser/DOM events delivered to the handlers installed by `connect()` are
  the constructors of `Ev`; `step` is the supervisor's reaction, translated
  handler by handler from the source.  `updateConnectionStatus` and
  `showConnectionStatus` only write header/notification DOM chrome (out of
  scope collaborators) and are not modelled.
* The backoff arithmetic (`Math.min(reconnectDelay * Math.pow(2, n), 30000)`
  and `Math.random() * 1000`) is modelled over `Nat`/`Rat`.  For all reachable
  values the float computation is exact (the products involved stay far below
  2^53 or are absorbed by the 30000 cap), so `Nat`/`Rat` is a faithful model;
  the random sample is a parameter `r` with `0 ≤ r < 1`.
* DOM reads/writes in the patching code are modelled on serialized content:
  a `.task-column` is a `Column` holding the optional `.task-count`
  textContent and the optional `.task-list` innerHTML (`none` = element
  absent, mirroring the `querySelector` null checks).  Actual DOM mutations
  are recorded as `RegionWrite` events so "only write when different" is
  observable.  HTML parsing (`DOMParser`, `innerHTML` element extraction) and
  task-card markup construction are kept as function parameters, since card
  rendering is an out-of-scope collaborator.
-/

namespace LiveView

/-- WebSocket `readyState` values; `opened` stands for `WebSocket.OPEN`
(`open` is a Lean keyword), the rest match `CONNECTING/CLOSING/CLOSED`. -/
inductive ReadyState
  | connecting
  | opened
  | closing
  | closed
  deriving DecidableEq

/-- The connection supervisor's mutable state: the module-level globals of
`app.js` plus bookkeeping for scheduled reconnect timers and started REST
polling loops. -/
structure SupState where
  ws? : Option ReadyState
  isConnecting : Bool
  connectionAttempts : Nat
  isOfflineMode : Bool
  fullPageReplacement : Bool
  pendingTimers : Nat
  pollLoops : Nat
  deriving DecidableEq

/-- `let maxReconnectAttempts = 10` (app.js line 46). -/
def maxReconnectAttempts : Nat := 10

/-- `let reconnectDelay = 1000` (app.js line 47). -/
def reconnectDelay : Nat := 1000

/-- State at script load: `window.ws = null`, all flags false, counters 0. -/
def initState : SupState :=
  { ws? := none, isConnecting := false, connectionAttempts := 0,
    isOfflineMode := false, fullPageReplacement := false,
    pendingTimers := 0, pollLoops := 0 }

/-- `connect()` (app.js lines 114-140): skips if already connecting (flag set
or socket in CONNECTING) or already connected (socket OPEN); otherwise sets
`isConnecting` and constructs a new `WebSocket` (readyState CONNECTING).
The boolean result records whether a new socket was constructed. -/
def connectE (s : SupState) : SupState × Bool :=
  if s.isConnecting = true ∨ s.ws? = some .connecting then (s, false)
  else if s.ws? = some .opened then (s, false)
  else ({ s with isConnecting := true, ws? := some .connecting }, true)

/-- `connect()`'s effect on the supervisor state. -/
def connect (s : SupState) : SupState := (connectE s).1

/-- `switchToOfflineMode()` (app.js lines 315-327): sets `isOfflineMode` and
starts a REST polling loop via `startRestApiPolling()`. -/
def switchToOfflineMode (s : SupState) : SupState :=
  { s with isOfflineMode := true, pollLoops := s.pollLoops + 1 }

/-- `handleReconnection()` (app.js lines 285-310): on budget exhaustion
switches to offline mode, otherwise schedules `setTimeout(connect, delay)`
with the jittered backoff delay. -/
def handleReconnection (s : SupState) : SupState :=
  if maxReconnectAttempts ≤ s.connectionAttempts then switchToOfflineMode s
  else { s with pendingTimers := s.pendingTimers + 1 }

/-- Events processed by the supervisor: the socket handlers installed by
`connect()` (`onopen`/`onclose`/`onerror`/`onmessage`) and the firing of a
scheduled reconnect timer. -/
inductive Ev
  | opened
  | closed
  | errored
  | message
  | timerFire
  deriving DecidableEq

/-- One supervisor transition, translated handler by handler:
`window.ws.onopen` (lines 142-159) clears `isConnecting` and zeroes
`connectionAttempts`; `window.ws.onclose` (lines 228-255) and
`window.ws.onerror` (lines 257-279) clear `isConnecting`, increment
`connectionAttempts` unconditionally, and call `handleReconnection()` only
when `window.fullPageReplacement` is not set; `onmessage` touches none of the
supervisor fields (its DOM patching is modelled separately by `onmessage`
below); a firing reconnect timer runs `connect()`.  The socket's
`readyState` is OPEN when `onopen` fires and CLOSED when `onclose` fires;
`onerror` leaves it as-is (the handler itself does not touch `window.ws`). -/
def step (s : SupState) : Ev → SupState
  | .opened =>
    { s with isConnecting := false, connectionAttempts := 0, ws? := some .opened }
  | .closed =>
    if s.fullPageReplacement = false then
      handleReconnection
        { s with isConnecting := false,
                 connectionAttempts := s.connectionAttempts + 1, ws? := some .closed }
    else
      { s with isConnecting := false,
               connectionAttempts := s.connectionAttempts + 1, ws? := some .closed }
  | .errored =>
    if s.fullPageReplacement = false then
      handleReconnection
        { s with isConnecting := false, connectionAttempts := s.connectionAttempts + 1 }
    else
      { s with isConnecting := false, connectionAttempts := s.connectionAttempts + 1 }
  | .message => s
  | .timerFire =>
    if 0 < s.pendingTimers then connect { s with pendingTimers := s.pendingTimers - 1 }
    else s

/-- Run a sequence of events through the supervisor. -/
def runEvents (s : SupState) (es : List Ev) : SupState := es.foldl step s

/-- Number of close/error events in a trace (the "primary failures"). -/
def failCount : List Ev → Nat
  | [] => 0
  | e :: es => (if e = .closed ∨ e = .errored then 1 else 0) + failCount es

/-- `Math.min(reconnectDelay * Math.pow(2, connectionAttempts), 30000)`
(app.js line 296). -/
def backoffDelay (attempt : Nat) : Nat :=
  min (reconnectDelay * 2 ^ attempt) 30000

/-- `delay + (Math.random() * 1000)` (app.js line 297), with the random
sample `r ∈ [0, 1)` made an explicit parameter. -/
def jitteredDelay (attempt : Nat) (r : ℚ) : ℚ :=
  (backoffDelay attempt : ℚ) + r * 1000

/-- Expected value of `jitteredDelay attempt` over the uniform sample:
the deterministic part plus the mean 500 of `uniform [0, 1000)`. -/
def expectedJitteredDelay (attempt : Nat) : ℚ :=
  (backoffDelay attempt : ℚ) + 500

/-- Outbound wire messages built by `createTask` / `cancelTask`
(`{type:'create_task', task_type}` and `{type:'cancel_task', task_id}`). -/
inductive OutMsg
  | createTaskMsg (task_type : String)
  | cancelTaskMsg (task_id : String)
  deriving DecidableEq

/-- The JSON body `createTaskRestMode` POSTs to `/api/tasks`
(app.js lines 594-601). -/
structure CreateTaskBody where
  name : String
  message : String
  taskTypeType : String
  timeout_ms : Nat
  deriving DecidableEq

/-- The externally visible action a user-initiated write results in. -/
inductive OutAction
  | wsSend (msg : OutMsg)
  | httpPost (path : String) (body : CreateTaskBody)
  | httpDelete (path : String)
  | notConnectedError
  deriving DecidableEq

/-- `createTask(taskType)` (app.js lines 544-582): sends over the WebSocket
when it is OPEN and offline mode is not active, otherwise falls back to
`createTaskRestMode` which POSTs `/api/tasks` (lines 587-649). -/
def createTask (s : SupState) (taskType : String) : OutAction :=
  if s.ws? = some .opened ∧ s.isOfflineMode = false then
    .wsSend (.createTaskMsg taskType)
  else
    .httpPost "/api/tasks"
      { name := "", message := "Task created via REST API fallback",
        taskTypeType := taskType,
        timeout_ms :=
          if taskType = "quick" then 2000
          else if taskType = "long" then 10000 else 5000 }

/-- `cancelTask(taskId)` (app.js lines 657-710): sends over the WebSocket
when it is OPEN; otherwise it only records a "WebSocket not connected"
error — it does not issue any HTTP request. -/
def cancelTask (s : SupState) (taskId : String) : OutAction :=
  if s.ws? = some .opened then .wsSend (.cancelTaskMsg taskId)
  else .notConnectedError

/-- `cancelTaskRestMode(taskId)` (app.js lines 482-499): the DELETE request
it issues.  It is wired to the cancel buttons rendered by
`updateTaskGridFromRestData`, not called from `cancelTask`. -/
def cancelTaskRestMode (taskId : String) : OutAction :=
  .httpDelete ("/api/tasks/" ++ taskId)

/-- One `.task-column`: the serialized `.task-count` textContent and
`.task-list` innerHTML; `none` means `querySelector` found no such element. -/
structure Column where
  count? : Option String
  items? : Option String
  deriving DecidableEq

/-- A recorded DOM mutation performed by the patching code. -/
inductive RegionWrite
  | countWrite (index : Nat) (value : String)
  | itemsWrite (index : Nat) (value : String)
  deriving DecidableEq

/-- The equality-gated write used twice inside the `updateTaskGrid` loop
(app.js lines 521-533): when both the incoming and the existing element are
present and their serialized content differs, overwrite and record the
write; otherwise leave the existing value untouched. -/
def fieldStep (mkW : String → RegionWrite) (existing incoming : Option String) :
    Option String × List RegionWrite :=
  match incoming, existing with
  | some nv, some ev => if nv = ev then (existing, []) else (some nv, [mkW nv])
  | _, _ => (existing, [])

/-- The body of the `newColumns.forEach` in `updateTaskGrid`
(app.js lines 517-535) for one column pair. -/
def updateColumn (index : Nat) (existing incoming : Column) :
    Column × List RegionWrite :=
  let c := fieldStep (RegionWrite.countWrite index) existing.count? incoming.count?
  let it := fieldStep (RegionWrite.itemsWrite index) existing.items? incoming.items?
  (⟨c.1, it.1⟩, c.2 ++ it.2)

/-- The indexed `forEach` over the parsed incoming columns: incoming columns
beyond the existing ones are ignored (`existingColumn` is undefined), and
existing columns beyond the incoming ones are left untouched. -/
def updateColumns (index : Nat) : List Column → List Column → List Column × List RegionWrite
  | existing, [] => (existing, [])
  | [], _ => ([], [])
  | e :: es, n :: ns =>
    let head := updateColumn index e n
    let rest := updateColumns (index + 1) es ns
    (head.1 :: rest.1, head.2 ++ rest.2)

/-- `updateTaskGrid(newHtml)` (app.js lines 507-536) after the incoming HTML
has been parsed into columns: patch the grid columns pairwise, returning the
new grid and the DOM writes performed. -/
def updateTaskGrid (grid patch : List Column) : List Column × List RegionWrite :=
  updateColumns 0 grid patch

/-- Task status discriminants used by the REST fallback bucketing. -/
inductive TaskStatus
  | inProgress
  | completed
  | error
  deriving DecidableEq

/-- One task item as returned by `GET /api/tasks`.  Fields other than
`status` are only consumed by the card-markup template, which is passed in
as a rendering parameter. -/
structure Task where
  id : String
  name : String
  message : String
  status : TaskStatus
  started_at : String
  finished_at : Option String
  actual_duration_ms : Option Nat
  result : Option String
  error : Option String
  deriving DecidableEq

/-- `const statusNames = ['InProgress', 'Completed', 'Error']`
(app.js line 440). -/
def statusNames : List TaskStatus := [.inProgress, .completed, .error]

/-- The empty-state markup written when a column has no tasks
(app.js line 454). -/
def emptyStateHtml : String := "<div class=\"empty-state\">No tasks yet...</div>"

/-- The `.task-list` innerHTML produced for a status bucket: the empty-state
div when there are no tasks, otherwise the concatenated task cards
(app.js lines 453-473; the card template itself is the `render` parameter). -/
def renderTaskList (render : TaskStatus → Task → String) (status : TaskStatus)
    (tasks : List Task) : String :=
  if tasks.isEmpty then emptyStateHtml
  else String.join (tasks.map (render status))

/-- `tasksByStatus[statusNames[index]] || []` (app.js lines 432-444): the
bucket for column `index`; an index beyond the three named statuses yields
the empty bucket. -/
def restColumnTasks (tasks : List Task) (index : Nat) : List Task :=
  match statusNames[index]? with
  | some st => tasks.filter (fun t => t.status == st)
  | none => []

/-- The innerHTML written into column `index` by the REST fallback. -/
def restColumnHtml (render : TaskStatus → Task → String) (tasks : List Task)
    (index : Nat) : String :=
  match statusNames[index]? with
  | some st => renderTaskList render st (tasks.filter (fun t => t.status == st))
  | none => emptyStateHtml

/-- The `columns.forEach` of `updateTaskGridFromRestData` (app.js lines
442-476): for every existing column, write the bucket size into
`.task-count` and the rendered bucket into `.task-list` whenever those
elements exist — with no comparison against the current content. -/
def updateColumnsFromRest (render : TaskStatus → Task → String) (tasks : List Task) :
    Nat → List Column → List Column × List RegionWrite
  | _, [] => ([], [])
  | index, c :: cs =>
    let cnt : Option String × List RegionWrite :=
      match c.count? with
      | some _ =>
        (some (toString (restColumnTasks tasks index).length),
         [.countWrite index (toString (restColumnTasks tasks index).length)])
      | none => (none, [])
    let itm : Option String × List RegionWrite :=
      match c.items? with
      | some _ =>
        (some (restColumnHtml render tasks index),
         [.itemsWrite index (restColumnHtml render tasks index)])
      | none => (none, [])
    let rest := updateColumnsFromRest render tasks (index + 1) cs
    (⟨cnt.1, itm.1⟩ :: rest.1, cnt.2 ++ itm.2 ++ rest.2)

/-- `updateTaskGridFromRestData(tasks)` (app.js lines 427-477). -/
def updateTaskGridFromRestData (render : TaskStatus → Task → String)
    (grid : List Column) (tasks : List Task) : List Column × List RegionWrite :=
  updateColumnsFromRest render tasks 0 grid

/-- A parsed inbound WebSocket payload: the optional `type` and `html`
fields of the JSON object. -/
structure InboundMsg where
  type? : Option String
  html? : Option String
  deriving DecidableEq

/-- The page-local replica the message handler mutates: the document body
(replaced by `full_page_load`), the task grid (patched by
`task_grid_update`), and the supervisor state (which the handler never
touches). -/
structure Page where
  body : String
  grid : List Column
  sup : SupState
  deriving DecidableEq

/-- Telemetry/diagnostic events emitted by the message handler. -/
inductive Report
  | messageReceived (msgType : Option String)
  | messageParseError
  | fullPageLoad
  | taskGridUpdate
  | fullPageParseFailed
  deriving DecidableEq

/-- `window.ws.onmessage` (app.js lines 161-226).  The input is the result
of `JSON.parse(event.data)`: `none` when parsing threw (the `catch` branch
logs `MESSAGE_PARSE_ERROR` and drops the message).  `parseBody` models
`new DOMParser().parseFromString(·, 'text/html').body` (returning the body's
innerHTML, `none` when there is no body); a missing `html` field reaches it
as the string `"undefined"`, following JavaScript's string conversion of
`undefined`.  `parseColumns` models extracting the `.task-column` elements
from the `task_grid_update` html; an empty html string is falsy and makes
`updateTaskGrid` return immediately. -/
def onmessage (parseBody : String → Option String)
    (parseColumns : String → List Column) :
    Option InboundMsg → Page → Page × List Report
  | none, p => (p, [.messageParseError])
  | some m, p =>
    if m.type? = some "full_page_load" then
      match parseBody (m.html?.getD "undefined") with
      | some newBody =>
        ({ p with body := newBody }, [.messageReceived m.type?, .fullPageLoad])
      | none =>
        (p, [.messageReceived m.type?, .fullPageLoad, .fullPageParseFailed])
    else if m.type? = some "task_grid_update" then
      match m.html? with
      | some h =>
        if h = "" then (p, [.messageReceived m.type?, .taskGridUpdate])
        else
          ({ p with grid := (updateTaskGrid p.grid (parseColumns h)).1 },
           [.messageReceived m.type?, .taskGridUpdate])
      | none => (p, [.messageReceived m.type?, .taskGridUpdate])
    else (p, [.messageReceived m.type?])

/-- A realistic failed connection attempt: the socket fires `error` then
`close` (each incrementing the counter and consulting `handleReconnection`),
then the two scheduled reconnect timers fire (the first reconnects, the
second finds the new attempt in progress and is skipped by `connect()`). -/
def failBurst : List Ev := [.errored, .closed, .timerFire, .timerFire]

/-- Four full failed attempts followed by a fifth whose error event brings
the counter to 9 (scheduling one more reconnect timer) and whose close event
brings it to 10, entering offline mode with that timer still pending. -/
def offlineTrace : List Ev :=
  failBurst ++ failBurst ++ failBurst ++ failBurst ++ [.errored, .closed]

/-- A supervisor state with `window.fullPageReplacement` set. -/
def fprState : SupState := { initState with fullPageReplacement := true }

/-- Offline mode with no usable socket: the situation after the downgrade. -/
def offlineNoWs : SupState :=
  { ws? := some .closed, isConnecting := false, connectionAttempts := 10,
    isOfflineMode := true, fullPageReplacement := false,
    pendingTimers := 0, pollLoops := 1 }

/-- Offline mode entered while one reconnect timer is still pending. -/
def offlinePending : SupState :=
  { ws? := some .closed, isConnecting := false, connectionAttempts := 10,
    isOfflineMode := true, fullPageReplacement := false,
    pendingTimers := 1, pollLoops := 1 }

/-- A healthy connected state. -/
def openOnline : SupState :=
  { ws? := some .opened, isConnecting := false, connectionAttempts := 0,
    isOfflineMode := false, fullPageReplacement := false,
    pendingTimers := 0, pollLoops := 0 }

/-- A one-column grid whose content already equals what the REST fallback
would write for an empty task list. -/
def equalGrid : List Column := [{ count? := some "0", items? := some emptyStateHtml }]

/-- A two-region grid for the mixed-patch scenario: the first region's
content will be unchanged by `mixedPatch`, the second differs in both
fields. -/
def mixedGrid : List Column :=
  [{ count? := some "1", items? := some "A" },
   { count? := some "2", items? := some "B" }]

/-- A patch identical to `mixedGrid` in region 0 and different in region 1. -/
def mixedPatch : List Column :=
  [{ count? := some "1", items? := some "A" },
   { count? := some "3", items? := some "C" }]

/-- An empty page replica. -/
def page0 : Page := { body := "", grid := [], sup := initState }

/-! ## Helper lemmas -/

theorem runEvents_cons (s : SupState) (e : Ev) (es : List Ev) :
    runEvents s (e :: es) = runEvents (step s e) es := rfl

theorem connect_cases (s : SupState) :
    connect s = s ∨
      connect s = { s with isConnecting := true, ws? := some .connecting } := by
  unfold connect connectE
  split
  · exact Or.inl rfl
  · split
    · exact Or.inl rfl
    · exact Or.inr rfl

theorem connect_isOfflineMode (s : SupState) :
    (connect s).isOfflineMode = s.isOfflineMode := by
  rcases connect_cases s with hc | hc <;> rw [hc]

theorem connect_connectionAttempts (s : SupState) :
    (connect s).connectionAttempts = s.connectionAttempts := by
  rcases connect_cases s with hc | hc <;> rw [hc]

theorem connect_fullPageReplacement (s : SupState) :
    (connect s).fullPageReplacement = s.fullPageReplacement := by
  rcases connect_cases s with hc | hc <;> rw [hc]

theorem handleReconnection_connectionAttempts (s : SupState) :
    (handleReconnection s).connectionAttempts = s.connectionAttempts := by
  unfold handleReconnection switchToOfflineMode
  split <;> rfl

theorem handleReconnection_ws (s : SupState) :
    (handleReconnection s).ws? = s.ws? := by
  unfold handleReconnection switchToOfflineMode
  split <;> rfl

theorem handleReconnection_fullPageReplacement (s : SupState) :
    (handleReconnection s).fullPageReplacement = s.fullPageReplacement := by
  unfold handleReconnection switchToOfflineMode
  split <;> rfl

theorem step_isOfflineMode_mono (s : SupState) (e : Ev) (h : s.isOfflineMode = true) :
    (step s e).isOfflineMode = true := by
  cases e with
  | opened => simpa [step] using h
  | message => simpa [step] using h
  | closed =>
    by_cases hfpr : s.fullPageReplacement = false <;>
      by_cases hge : maxReconnectAttempts ≤ s.connectionAttempts + 1 <;>
        simp [step, handleReconnection, switchToOfflineMode, hfpr, hge, h]
  | errored =>
    by_cases hfpr : s.fullPageReplacement = false <;>
      by_cases hge : maxReconnectAttempts ≤ s.connectionAttempts + 1 <;>
        simp [step, handleReconnection, switchToOfflineMode, hfpr, hge, h]
  | timerFire =>
    by_cases hp : 0 < s.pendingTimers
    · have hstep : step s Ev.timerFire = connect { s with pendingTimers := s.pendingTimers - 1 } := by
        simp [step, hp]
      rw [hstep, connect_isOfflineMode]
      exact h
    · have hstep : step s Ev.timerFire = s := by simp [step, hp]
      rw [hstep]
      exact h

theorem runEvents_offline (s : SupState) (es : List Ev) (h : s.isOfflineMode = true) :
    (runEvents s es).isOfflineMode = true := by
  induction es generalizing s with
  | nil => exact h
  | cons e es ih => exact ih (step s e) (step_isOfflineMode_mono s e h)

theorem step_timerFire_spec (s : SupState) :
    (step s .timerFire).connectionAttempts = s.connectionAttempts ∧
    (step s .timerFire).isOfflineMode = s.isOfflineMode ∧
    (step s .timerFire).fullPageReplacement = s.fullPageReplacement := by
  by_cases hp : 0 < s.pendingTimers
  · have hstep : step s Ev.timerFire = connect { s with pendingTimers := s.pendingTimers - 1 } := by
      simp [step, hp]
    rw [hstep]
    exact ⟨connect_connectionAttempts _, connect_isOfflineMode _, connect_fullPageReplacement _⟩
  · have hstep : step s Ev.timerFire = s := by simp [step, hp]
    rw [hstep]
    exact ⟨rfl, rfl, rfl⟩

theorem step_closed_spec (s : SupState) (hfpr : s.fullPageReplacement = false) :
    (step s .closed).connectionAttempts = s.connectionAttempts + 1 ∧
    (step s .closed).fullPageReplacement = s.fullPageReplacement ∧
    (step s .closed).isOfflineMode =
      (if maxReconnectAttempts ≤ s.connectionAttempts + 1 then true else s.isOfflineMode) := by
  by_cases h : maxReconnectAttempts ≤ s.connectionAttempts + 1 <;>
    simp [step, handleReconnection, switchToOfflineMode, hfpr, h]

theorem step_errored_spec (s : SupState) (hfpr : s.fullPageReplacement = false) :
    (step s .errored).connectionAttempts = s.connectionAttempts + 1 ∧
    (step s .errored).fullPageReplacement = s.fullPageReplacement ∧
    (step s .errored).isOfflineMode =
      (if maxReconnectAttempts ≤ s.connectionAttempts + 1 then true else s.isOfflineMode) := by
  by_cases h : maxReconnectAttempts ≤ s.connectionAttempts + 1 <;>
    simp [step, handleReconnection, switchToOfflineMode, hfpr, h]

theorem runEvents_offline_iff (es : List Ev) :
    ∀ s : SupState, Ev.opened ∉ es → s.fullPageReplacement = false →
      s.isOfflineMode = false →
      ((runEvents s es).isOfflineMode = true ↔
        (1 ≤ failCount es ∧
          maxReconnectAttempts ≤ s.connectionAttempts + failCount es)) := by
  induction es with
  | nil =>
    intro s _ _ hoff
    simp [runEvents, failCount, hoff]
  | cons e es ih =>
    intro s hmem hfpr hoff
    have hmem' : Ev.opened ∉ es := fun hm => hmem (List.mem_cons_of_mem _ hm)
    rw [runEvents_cons]
    cases e with
    | opened => exact absurd (List.mem_cons_self _ _) hmem
    | message =>
      have hm : step s Ev.message = s := rfl
      have hfc : failCount (Ev.message :: es) = failCount es := by simp [failCount]
      rw [hm, ih s hmem' hfpr hoff, hfc]
    | timerFire =>
      have hs := step_timerFire_spec s
      have hfc : failCount (Ev.timerFire :: es) = failCount es := by simp [failCount]
      rw [ih (step s .timerFire) hmem' (hs.2.2.trans hfpr) (hs.2.1.trans hoff), hs.1, hfc]
    | closed =>
      have hs := step_closed_spec s hfpr
      have hfc : failCount (Ev.closed :: es) = 1 + failCount es := by simp [failCount]
      rw [hfc]
      by_cases hge : maxReconnectAttempts ≤ s.connectionAttempts + 1
      · have hoff' : (step s .closed).isOfflineMode = true := by
          rw [hs.2.2, if_pos hge]
        rw [runEvents_offline _ es hoff']
        exact iff_of_true rfl ⟨by omega, by omega⟩
      · have hoff' : (step s .closed).isOfflineMode = false := by
          rw [hs.2.2, if_neg hge, hoff]
        have hfpr' : (step s .closed).fullPageReplacement = false := hs.2.1.trans hfpr
        rw [ih _ hmem' hfpr' hoff', hs.1]
        omega
    | errored =>
      have hs := step_errored_spec s hfpr
      have hfc : failCount (Ev.errored :: es) = 1 + failCount es := by simp [failCount]
      rw [hfc]
      by_cases hge : maxReconnectAttempts ≤ s.connectionAttempts + 1
      · have hoff' : (step s .errored).isOfflineMode = true := by
          rw [hs.2.2, if_pos hge]
        rw [runEvents_offline _ es hoff']
        exact iff_of_true rfl ⟨by omega, by omega⟩
      · have hoff' : (step s .errored).isOfflineMode = false := by
          rw [hs.2.2, if_neg hge, hoff]
        have hfpr' : (step s .errored).fullPageReplacement = false := hs.2.1.trans hfpr
        rw [ih _ hmem' hfpr' hoff', hs.1]
        omega

/-! ## C2 -/

/-- C2: starting from the initial `connect()`, a trace of primary events
containing no successful open reaches offline mode exactly when it contains
at least `maxReconnectAttempts` (= 10) close/error failures — in particular
after exactly 10 consecutive failures — it never reaches offline mode on
fewer failures, and once `isOfflineMode` is set no further supervisor event
(open, close, error, message or timer) ever clears it: offline is an
absorbing state. -/
theorem budget_exhaustion_offline :
    (∀ es : List Ev, Ev.opened ∉ es → failCount es = maxReconnectAttempts →
        (runEvents (connect initState) es).isOfflineMode = true) ∧
    (∀ es : List Ev, Ev.opened ∉ es → failCount es < maxReconnectAttempts →
        (runEvents (connect initState) es).isOfflineMode = false) ∧
    (∀ (s : SupState) (e : Ev), s.isOfflineMode = true →
        (step s e).isOfflineMode = true) := by
  have hfpr : (connect initState).fullPageReplacement = false := by decide
  have hoff : (connect initState).isOfflineMode = false := by decide
  have ha : (connect initState).connectionAttempts = 0 := by decide
  refine ⟨?_, ?_, step_isOfflineMode_mono⟩
  · intro es hno hf
    rw [runEvents_offline_iff es (connect initState) hno hfpr hoff]
    have hm : maxReconnectAttempts = 10 := rfl
    exact ⟨by omega, by omega⟩
  · intro es hno hf
    cases hb : (runEvents (connect initState) es).isOfflineMode with
    | false => rfl
    | true =>
      have h := (runEvents_offline_iff es (connect initState) hno hfpr hoff).mp hb
      omega

/-- Witness: ten consecutive close failures from the initial connection put
the supervisor into offline mode. -/
theorem budget_exhaustion_offline_witness :
    (runEvents (connect initState) (List.replicate 10 Ev.closed)).isOfflineMode = true :=
  budget_exhaustion_offline.1 (List.replicate 10 Ev.closed) (by decide) (by decide)

/-! ## C1 -/

theorem step_closed_ws (s : SupState) :
    (step s .closed).ws? = some ReadyState.closed := by
  by_cases hfpr : s.fullPageReplacement = false <;>
    by_cases hge : maxReconnectAttempts ≤ s.connectionAttempts + 1 <;>
      simp [step, handleReconnection, switchToOfflineMode, hfpr, hge]

theorem step_errored_ws (s : SupState) :
    (step s .errored).ws? = s.ws? := by
  by_cases hfpr : s.fullPageReplacement = false <;>
    by_cases hge : maxReconnectAttempts ≤ s.connectionAttempts + 1 <;>
      simp [step, handleReconnection, switchToOfflineMode, hfpr, hge]

/-- C1 counterexample: a realistic trace in which each failed connection
attempt fires `error` then `close` (both handlers increment the counter
and consult `handleReconnection`).  After four full failed attempts the
fifth attempt's error event brings the counter to 9 and schedules one more
reconnect timer; its close event brings the counter to 10 and enters
offline mode with that timer still pending.  When the pending timer fires,
`connect()` — which never checks `isOfflineMode` — constructs a fresh
primary WebSocket: the system re-enters Connecting after Offline,
contradicting the claimed permanence. -/
theorem offline_then_reconnect :
    (runEvents (connect initState) offlineTrace).isOfflineMode = true ∧
    0 < (runEvents (connect initState) offlineTrace).pendingTimers ∧
    (step (runEvents (connect initState) offlineTrace) .timerFire).ws? =
      some ReadyState.connecting ∧
    (step (runEvents (connect initState) offlineTrace) .timerFire).isConnecting = true ∧
    (step (runEvents (connect initState) offlineTrace) .timerFire).isOfflineMode = true := by
  decide

/-- C1 (amended): once Offline is entered the supervisor's event handlers
never construct a new primary connection — an open/close/error/message
event yields a CONNECTING socket only if one already existed, and a
close/error arriving with the budget exhausted always routes to
`switchToOfflineMode` instead of scheduling a retry — but the degrade is
not strictly permanent: a reconnect timer scheduled before Offline was
entered still runs `connect()` when it fires, and because `connect()` does
not consult `isOfflineMode` it constructs a new primary connection
(re-entering Connecting) while offline mode remains active. -/
theorem offline_primary_reattempt_spec :
    (∀ (s : SupState) (e : Ev), s.isOfflineMode = true → e ≠ .timerFire →
        (step s e).ws? = some ReadyState.connecting → s.ws? = some ReadyState.connecting) ∧
    (∀ s : SupState, maxReconnectAttempts ≤ s.connectionAttempts →
        handleReconnection s = switchToOfflineMode s) ∧
    (∀ s : SupState, s.isOfflineMode = true → 0 < s.pendingTimers →
        s.isConnecting = false → s.ws? = some ReadyState.closed →
        (step s .timerFire).ws? = some ReadyState.connecting ∧
        (step s .timerFire).isOfflineMode = true) := by
  refine ⟨?_, ?_, ?_⟩
  · intro s e hoff hne h3
    cases e with
    | opened => simp [step] at h3
    | message => exact h3
    | closed =>
      rw [step_closed_ws] at h3
      simp at h3
    | errored =>
      rw [step_errored_ws] at h3
      exact h3
    | timerFire => exact absurd rfl hne
  · intro s h
    unfold handleReconnection
    rw [if_pos h]
  · intro s hoff hpt hic hws
    have hstep : step s Ev.timerFire =
        connect { s with pendingTimers := s.pendingTimers - 1 } := by
      simp [step, hpt]
    have h1 : ¬({ s with pendingTimers := s.pendingTimers - 1 }.isConnecting = true ∨
        { s with pendingTimers := s.pendingTimers - 1 }.ws? = some ReadyState.connecting) := by
      simp [hic, hws]
    have h2 : ¬{ s with pendingTimers := s.pendingTimers - 1 }.ws? = some ReadyState.opened := by
      simp [hws]
    have hcon : connect { s with pendingTimers := s.pendingTimers - 1 } =
        { s with pendingTimers := s.pendingTimers - 1, isConnecting := true,
                 ws? := some ReadyState.connecting } := by
      unfold connect connectE
      rw [if_neg h1, if_neg h2]
    rw [hstep, hcon]
    exact ⟨rfl, hoff⟩

/-- Witness for the amended C1: in a concrete offline state with one
pending reconnect timer, `handleReconnection` routes to offline mode, and
the firing timer constructs a new primary connection while offline mode
stays active. -/
theorem offline_primary_reattempt_spec_witness :
    handleReconnection offlinePending = switchToOfflineMode offlinePending ∧
    ((step offlinePending .timerFire).ws? = some ReadyState.connecting ∧
      (step offlinePending .timerFire).isOfflineMode = true) :=
  ⟨offline_primary_reattempt_spec.2.1 offlinePending (by decide),
   offline_primary_reattempt_spec.2.2 offlinePending rfl (by decide) rfl rfl⟩

/-! ## C3 -/

/-- C3 counterexample: a close event processed while
`window.fullPageReplacement` is set still increments `connectionAttempts`
(the handler increments before checking the flag), so the retry counter is
not left unchanged by such an event. -/
theorem close_during_replacement_increments :
    (step fprState .closed).connectionAttempts = 1 ∧
    fprState.connectionAttempts = 0 ∧
    ¬ (step fprState .closed).connectionAttempts = fprState.connectionAttempts := by
  decide

/-- C3 (amended): a close event processed while the full-replacement flag
is set performs exactly the unconditional handler prefix — it clears
`isConnecting`, increments `connectionAttempts` and records the CLOSED
socket — but schedules no reconnection, starts no polling loop and leaves
offline mode untouched, because `handleReconnection` is skipped entirely. -/
theorem close_during_replacement_spec (s : SupState)
    (h : s.fullPageReplacement = true) :
    step s .closed = { s with isConnecting := false,
                              connectionAttempts := s.connectionAttempts + 1,
                              ws? := some ReadyState.closed } := by
  have hneg : ¬ s.fullPageReplacement = false := by simp [h]
  simp [step, hneg]

/-- Witness: the amended C3 applied to a concrete state with the
full-replacement flag set. -/
theorem close_during_replacement_spec_witness :
    step fprState .closed = { fprState with isConnecting := false,
                                            connectionAttempts := 1,
                                            ws? := some ReadyState.closed } :=
  close_during_replacement_spec fprState rfl

/-! ## C7 -/

/-- C7: the retry counter is set to 0 exactly by a successful open event,
whatever its prior value; close and error events always increment it;
message and timer events — and `connect()` itself — leave it unchanged, so
no other supervisor operation ever resets it. -/
theorem retryCounter_reset_on_open_only :
    (∀ s : SupState, (step s .opened).connectionAttempts = 0) ∧
    (∀ s : SupState, (step s .closed).connectionAttempts = s.connectionAttempts + 1) ∧
    (∀ s : SupState, (step s .errored).connectionAttempts = s.connectionAttempts + 1) ∧
    (∀ s : SupState, (step s .message).connectionAttempts = s.connectionAttempts) ∧
    (∀ s : SupState, (step s .timerFire).connectionAttempts = s.connectionAttempts) ∧
    (∀ s : SupState, (connect s).connectionAttempts = s.connectionAttempts) := by
  refine ⟨fun s => rfl, fun s => ?_, fun s => ?_, fun s => rfl,
    fun s => (step_timerFire_spec s).1, connect_connectionAttempts⟩
  · by_cases hfpr : s.fullPageReplacement = false
    · exact (step_closed_spec s hfpr).1
    · simp [step, hfpr]
  · by_cases hfpr : s.fullPageReplacement = false
    · exact (step_errored_spec s hfpr).1
    · simp [step, hfpr]

/-! ## C10 -/

/-- C10: `connect()` invoked while a connection attempt is already in
progress (the `isConnecting` flag is set or the socket is CONNECTING) or
while the socket is already OPEN returns through one of its two guards:
it constructs no WebSocket and leaves the whole supervisor state —
`window.ws`, `connectionAttempts` and every other field — unchanged. -/
theorem connect_skips_when_active (s : SupState)
    (h : s.isConnecting = true ∨ s.ws? = some ReadyState.connecting ∨
      s.ws? = some ReadyState.opened) :
    connectE s = (s, false) := by
  unfold connectE
  rcases h with h | h | h
  · rw [if_pos (Or.inl h)]
  · rw [if_pos (Or.inr h)]
  · by_cases h1 : s.isConnecting = true ∨ s.ws? = some ReadyState.connecting
    · rw [if_pos h1]
    · rw [if_neg h1, if_pos h]

/-- Witness: `connect()` is a no-op on a concrete state whose
`isConnecting` flag is set. -/
theorem connect_skips_when_active_witness :
    connectE { initState with isConnecting := true } =
      ({ initState with isConnecting := true }, false) :=
  connect_skips_when_active { initState with isConnecting := true } (Or.inl rfl)

/-! ## C8 -/

/-- C8: the computed reconnect delay is exactly
`min(1000 * 2 ^ attempt, 30000)` plus the jitter `r * 1000`, a pure total
function of the attempt count and the random sample; for any sample in
`[0, 1)` the jitter component lies in `[0, 1000)`; and the expectation of
the delay (deterministic part plus the uniform mean 500) is monotonically
non-decreasing in the attempt count. -/
theorem backoff_formula :
    (∀ (attempt : Nat) (r : ℚ),
        jitteredDelay attempt r = ((min (1000 * 2 ^ attempt) 30000 : ℕ) : ℚ) + r * 1000) ∧
    (∀ r : ℚ, 0 ≤ r → r < 1 → 0 ≤ r * 1000 ∧ r * 1000 < 1000) ∧
    Monotone expectedJitteredDelay := by
  refine ⟨fun a r => rfl, fun r h0 h1 => ⟨by linarith, by linarith⟩, ?_⟩
  apply monotone_nat_of_le_succ
  intro a
  unfold expectedJitteredDelay
  have h2 : (2 : ℕ) ^ a ≤ 2 ^ (a + 1) :=
    Nat.pow_le_pow_right (by norm_num) (Nat.le_succ a)
  have h : backoffDelay a ≤ backoffDelay (a + 1) := by
    unfold backoffDelay
    exact min_le_min (Nat.mul_le_mul_left _ h2) le_rfl
  have hc : (backoffDelay a : ℚ) ≤ (backoffDelay (a + 1) : ℚ) := by exact_mod_cast h
  linarith

/-- Witness: the backoff formula and the jitter bounds at attempt 3 with
sample 1/2. -/
theorem backoff_formula_witness :
    jitteredDelay 3 (1 / 2) = ((min (1000 * 2 ^ 3) 30000 : ℕ) : ℚ) + (1 / 2) * 1000 ∧
    (0 ≤ (1 / 2 : ℚ) * 1000 ∧ (1 / 2 : ℚ) * 1000 < 1000) :=
  ⟨backoff_formula.1 3 (1 / 2),
   backoff_formula.2.1 (1 / 2) (by norm_num) (by norm_num)⟩

/-! ## C9 -/

/-- C9 counterexample: at attempt 5 the cap truncates the exponential term
(`1000 * 2 ^ 5 = 32000 > 30000`), so the claimed lower bound
`base * 2 ^ attempt ≤ delay(attempt) - jitter` fails (shown with jitter
sample 0). -/
theorem backoff_lower_bound_fails :
    ¬ ((1000 * 2 ^ 5 : ℚ) ≤ jitteredDelay 5 0 - 0 * 1000) := by
  have h : backoffDelay 5 = 30000 := by decide
  simp only [jitteredDelay, h]
  norm_num

/-- C9 (amended): the deterministic part of the delay is exactly
`min(base * 2 ^ attempt, cap)` — so it is bounded above by the cap 30000
rather than below by `base * 2 ^ attempt` — and the full delay is always at
least the base 1000. -/
theorem backoff_bounds_spec (attempt : Nat) (r : ℚ) (h0 : 0 ≤ r) (h1 : r < 1) :
    jitteredDelay attempt r - r * 1000 = ((min (1000 * 2 ^ attempt) 30000 : ℕ) : ℚ) ∧
    jitteredDelay attempt r - r * 1000 ≤ 30000 ∧
    (1000 : ℚ) ≤ jitteredDelay attempt r := by
  have hb1 : 1000 ≤ backoffDelay attempt := by
    unfold backoffDelay reconnectDelay
    have hp : 1000 * 1 ≤ 1000 * 2 ^ attempt :=
      Nat.mul_le_mul_left _ (Nat.one_le_pow _ _ (by norm_num))
    exact le_min (by omega) (by norm_num)
  have hb2 : backoffDelay attempt ≤ 30000 := min_le_right _ _
  have e1 : jitteredDelay attempt r - r * 1000 = ((backoffDelay attempt : ℕ) : ℚ) := by
    unfold jitteredDelay
    ring
  refine ⟨by rw [e1]; rfl, ?_, ?_⟩
  · rw [e1]
    exact_mod_cast hb2
  · unfold jitteredDelay
    have hcast : (1000 : ℚ) ≤ (backoffDelay attempt : ℚ) := by exact_mod_cast hb1
    have hj : 0 ≤ r * 1000 := by linarith
    linarith

/-- Witness: the amended backoff bounds at attempt 0 with sample 1/2. -/
theorem backoff_bounds_spec_witness :
    jitteredDelay 0 (1 / 2) - (1 / 2) * 1000 = ((min (1000 * 2 ^ 0) 30000 : ℕ) : ℚ) ∧
    jitteredDelay 0 (1 / 2) - (1 / 2) * 1000 ≤ 30000 ∧
    (1000 : ℚ) ≤ jitteredDelay 0 (1 / 2) :=
  backoff_bounds_spec 0 (1 / 2) (by norm_num) (by norm_num)

/-! ## C4 -/

/-- C4 counterexample: with the fallback adapter active (offline mode, no
open primary socket), `cancelTask` does not issue the claimed
`DELETE /api/tasks/{id}` request — it only reports a not-connected error.
(`cancelTaskRestMode`, which does issue the DELETE, is only reachable from
the buttons rendered by the REST fallback grid, not from `cancelTask`.) -/
theorem cancel_offline_not_delete :
    cancelTask offlineNoWs "task-1" = OutAction.notConnectedError ∧
    ¬ cancelTask offlineNoWs "task-1" = OutAction.httpDelete "/api/tasks/task-1" := by
  refine ⟨rfl, by decide⟩

/-- C4 (amended): `createTask` routes through the active adapter — the
primary WebSocket when it is OPEN and offline mode is inactive, otherwise a
`POST /api/tasks` with the fallback body — but `cancelTask` only sends over
the WebSocket when it is OPEN (even in offline mode) and otherwise reports
a not-connected error without issuing any fallback request; the DELETE
`/api/tasks/{id}` is issued by the separate `cancelTaskRestMode`, which the
offline-rendered grid wires directly to its cancel buttons. -/
theorem write_routing_spec :
    (∀ (s : SupState) (t : String), s.ws? = some ReadyState.opened →
        s.isOfflineMode = false → createTask s t = .wsSend (.createTaskMsg t)) ∧
    (∀ (s : SupState) (t : String),
        ¬(s.ws? = some ReadyState.opened ∧ s.isOfflineMode = false) →
        createTask s t = .httpPost "/api/tasks"
          { name := "", message := "Task created via REST API fallback",
            taskTypeType := t,
            timeout_ms :=
              if t = "quick" then 2000 else if t = "long" then 10000 else 5000 }) ∧
    (∀ (s : SupState) (i : String), s.ws? = some ReadyState.opened →
        cancelTask s i = .wsSend (.cancelTaskMsg i)) ∧
    (∀ (s : SupState) (i : String), ¬ s.ws? = some ReadyState.opened →
        cancelTask s i = .notConnectedError) ∧
    (∀ i : String, cancelTaskRestMode i = .httpDelete ("/api/tasks/" ++ i)) := by
  refine ⟨?_, ?_, ?_, ?_, fun i => rfl⟩
  · intro s t h1 h2
    unfold createTask
    rw [if_pos ⟨h1, h2⟩]
  · intro s t h
    unfold createTask
    rw [if_neg h]
  · intro s i h
    unfold cancelTask
    rw [if_pos h]
  · intro s i h
    unfold cancelTask
    rw [if_neg h]

/-- Witness: routing of concrete creates and cancels in a connected state
and in the offline fallback state. -/
theorem write_routing_spec_witness :
    createTask openOnline "quick" = OutAction.wsSend (.createTaskMsg "quick") ∧
    createTask offlineNoWs "quick" = OutAction.httpPost "/api/tasks"
      { name := "", message := "Task created via REST API fallback",
        taskTypeType := "quick", timeout_ms := 2000 } ∧
    cancelTask openOnline "t" = OutAction.wsSend (.cancelTaskMsg "t") ∧
    cancelTask offlineNoWs "t" = OutAction.notConnectedError :=
  ⟨write_routing_spec.1 openOnline "quick" rfl rfl,
   write_routing_spec.2.1 offlineNoWs "quick" (by decide),
   write_routing_spec.2.2.1 openOnline "t" rfl,
   write_routing_spec.2.2.2.1 offlineNoWs "t" (by decide)⟩

/-! ## C5 -/

theorem fieldStep_self (mkW : String → RegionWrite) (a : Option String) :
    fieldStep mkW a a = (a, []) := by
  cases a <;> simp [fieldStep]

theorem fieldStep_idem (mkW : String → RegionWrite) (e n : Option String) :
    fieldStep mkW (fieldStep mkW e n).1 n = ((fieldStep mkW e n).1, []) := by
  cases n with
  | none => cases e <;> simp [fieldStep]
  | some nv =>
    cases e with
    | none => simp [fieldStep]
    | some ev => by_cases h : nv = ev <;> simp [fieldStep, h]

theorem updateColumn_self (index : Nat) (c : Column) :
    updateColumn index c c = (c, []) := by
  simp [updateColumn, fieldStep_self]

theorem updateColumn_idem (index : Nat) (e n : Column) :
    updateColumn index (updateColumn index e n).1 n = ((updateColumn index e n).1, []) := by
  simp [updateColumn, fieldStep_idem]

theorem updateColumns_self (index : Nat) (g : List Column) :
    updateColumns index g g = (g, []) := by
  induction g generalizing index with
  | nil => simp [updateColumns]
  | cons c cs ih => simp [updateColumns, updateColumn_self, ih]

theorem updateColumns_idem (index : Nat) (g p : List Column) :
    updateColumns index (updateColumns index g p).1 p =
      ((updateColumns index g p).1, []) := by
  induction p generalizing index g with
  | nil => simp [updateColumns]
  | cons n ns ih =>
    cases g with
    | nil => simp [updateColumns]
    | cons e es => simp [updateColumns, updateColumn_idem, ih]

theorem updateColumnsFromRest_idem (render : TaskStatus → Task → String)
    (tasks : List Task) (index : Nat) (g : List Column) :
    (updateColumnsFromRest render tasks index
        (updateColumnsFromRest render tasks index g).1).1 =
      (updateColumnsFromRest render tasks index g).1 := by
  induction g generalizing index with
  | nil => simp [updateColumnsFromRest]
  | cons c cs ih =>
    cases hc : c.count? <;> cases hi : c.items? <;>
      simp [updateColumnsFromRest, hc, hi, ih]

theorem fieldStep_eq_noop (mkW : String → RegionWrite) (ex inc : Option String)
    (h : inc = ex) : fieldStep mkW ex inc = (ex, []) := by
  subst h
  exact fieldStep_self mkW inc

theorem fieldStep_write_mem (mkW : String → RegionWrite) (ex inc : Option String)
    (w : RegionWrite) (hw : w ∈ (fieldStep mkW ex inc).2) :
    ∃ nv ev, inc = some nv ∧ ex = some ev ∧ ¬ nv = ev ∧ w = mkW nv := by
  cases inc with
  | none => simp [fieldStep] at hw
  | some nv =>
    cases ex with
    | none => simp [fieldStep] at hw
    | some ev =>
      by_cases h : nv = ev
      · simp [fieldStep, h] at hw
      · simp [fieldStep, h] at hw
        exact ⟨nv, ev, rfl, rfl, h, hw⟩

theorem updateColumn_count_eq (index : Nat) (e n : Column) (h : n.count? = e.count?) :
    (updateColumn index e n).1.count? = e.count? := by
  simp [updateColumn, fieldStep_eq_noop (RegionWrite.countWrite index) e.count? n.count? h]

theorem updateColumn_items_eq (index : Nat) (e n : Column) (h : n.items? = e.items?) :
    (updateColumn index e n).1.items? = e.items? := by
  simp [updateColumn, fieldStep_eq_noop (RegionWrite.itemsWrite index) e.items? n.items? h]

theorem updateColumn_countWrite_mem (index : Nat) (e n : Column) (j : Nat) (v : String)
    (hw : RegionWrite.countWrite j v ∈ (updateColumn index e n).2) :
    j = index ∧ n.count? = some v ∧ ∃ ev, e.count? = some ev ∧ ¬ v = ev := by
  simp only [updateColumn, List.mem_append] at hw
  rcases hw with hw | hw
  · obtain ⟨nv, ev, hin, hex, hne, hweq⟩ := fieldStep_write_mem _ _ _ _ hw
    injection hweq with hj hv
    subst hj
    subst hv
    exact ⟨rfl, hin, ev, hex, hne⟩
  · obtain ⟨nv, ev, hin, hex, hne, hweq⟩ := fieldStep_write_mem _ _ _ _ hw
    simp at hweq

theorem updateColumn_itemsWrite_mem (index : Nat) (e n : Column) (j : Nat) (v : String)
    (hw : RegionWrite.itemsWrite j v ∈ (updateColumn index e n).2) :
    j = index ∧ n.items? = some v ∧ ∃ ev, e.items? = some ev ∧ ¬ v = ev := by
  simp only [updateColumn, List.mem_append] at hw
  rcases hw with hw | hw
  · obtain ⟨nv, ev, hin, hex, hne, hweq⟩ := fieldStep_write_mem _ _ _ _ hw
    simp at hweq
  · obtain ⟨nv, ev, hin, hex, hne, hweq⟩ := fieldStep_write_mem _ _ _ _ hw
    injection hweq with hj hv
    subst hj
    subst hv
    exact ⟨rfl, hin, ev, hex, hne⟩

theorem updateColumns_getElem_some (p : List Column) :
    ∀ (g : List Column) (i0 j : Nat) (e n : Column), g[j]? = some e → p[j]? = some n →
      ((updateColumns i0 g p).1)[j]? = some (updateColumn (i0 + j) e n).1 := by
  induction p with
  | nil =>
    intro g i0 j e n _ hp
    simp at hp
  | cons n0 ns ih =>
    intro g i0 j e n hg hp
    cases g with
    | nil => simp at hg
    | cons e0 es =>
      cases j with
      | zero =>
        simp at hg hp
        subst hg
        subst hp
        simp [updateColumns]
      | succ j' =>
        simp at hg hp
        simp only [updateColumns, List.getElem?_cons_succ]
        have harith : i0 + (j' + 1) = i0 + 1 + j' := by omega
        rw [harith]
        exact ih es (i0 + 1) j' e n hg hp

theorem updateColumns_getElem_frame (p : List Column) :
    ∀ (g : List Column) (i0 j : Nat), p[j]? = none →
      ((updateColumns i0 g p).1)[j]? = g[j]? := by
  induction p with
  | nil =>
    intro g i0 j _
    simp [updateColumns]
  | cons n0 ns ih =>
    intro g i0 j hp
    cases g with
    | nil => simp [updateColumns]
    | cons e0 es =>
      cases j with
      | zero => simp at hp
      | succ j' =>
        rw [List.getElem?_cons_succ] at hp
        simp only [updateColumns, List.getElem?_cons_succ]
        exact ih es (i0 + 1) j' hp

theorem updateColumns_write_mem (p : List Column) :
    ∀ (g : List Column) (i0 : Nat) (w : RegionWrite), w ∈ (updateColumns i0 g p).2 →
      ∃ j e n, g[j]? = some e ∧ p[j]? = some n ∧ w ∈ (updateColumn (i0 + j) e n).2 := by
  induction p with
  | nil =>
    intro g i0 w hw
    simp [updateColumns] at hw
  | cons n0 ns ih =>
    intro g i0 w hw
    cases g with
    | nil => simp [updateColumns] at hw
    | cons e0 es =>
      simp only [updateColumns, List.mem_append] at hw
      rcases hw with hw | hw
      · exact ⟨0, e0, n0, by simp, by simp, by simpa using hw⟩
      · obtain ⟨j, e, n, hg, hp, hwc⟩ := ih es (i0 + 1) w hw
        refine ⟨j + 1, e, n, by simpa using hg, by simpa using hp, ?_⟩
        have harith : i0 + (j + 1) = i0 + 1 + j := by omega
        rw [harith]
        exact hwc

/-- C5 counterexample: the REST fallback path (`updateTaskGridFromRestData`)
writes the badge count and the item list even when the incoming serialized
content equals the current one: on a grid whose single column already holds
count `"0"` and the empty-state markup, an empty task list produces two DOM
writes while leaving the stored state identical — contradicting the claim
that writes are equality-gated regardless of the transport. -/
theorem rest_update_writes_on_equal :
    (updateTaskGridFromRestData (fun _ _ => "") equalGrid []).1 = equalGrid ∧
    (updateTaskGridFromRestData (fun _ _ => "") equalGrid []).2 =
      [RegionWrite.countWrite 0 "0", RegionWrite.itemsWrite 0 emptyStateHtml] := by
  exact ⟨rfl, rfl⟩

/-- C5 (amended): for primary-transport patches (`updateTaskGrid`) the
write-skip rule holds per region and per field: inside an arbitrary patch —
even one that changes other regions, or the other field of the same region —
a region whose incoming badge count (resp. item list) serialization equals
the current one keeps that field unchanged and fires no corresponding
write; conversely, every count (resp. items) write that does fire carries
an incoming value that was present on both sides and differed from the
current one; regions not present in the patch are left untouched; and
applying a patch identical to the grid, or the same patch a second time,
changes nothing and fires no writes.  The REST fallback path
(`updateTaskGridFromRestData`) instead writes unconditionally; it is only
idempotent on the stored state. -/
theorem patch_equality_gating_spec :
    (∀ (g p : List Column) (i : Nat) (e n : Column),
        g[i]? = some e → p[i]? = some n → n.count? = e.count? →
        ∃ c, ((updateTaskGrid g p).1)[i]? = some c ∧ c.count? = e.count?) ∧
    (∀ (g p : List Column) (i : Nat) (e n : Column),
        g[i]? = some e → p[i]? = some n → n.items? = e.items? →
        ∃ c, ((updateTaskGrid g p).1)[i]? = some c ∧ c.items? = e.items?) ∧
    (∀ (g p : List Column) (i : Nat) (v : String),
        RegionWrite.countWrite i v ∈ (updateTaskGrid g p).2 →
        ∃ e n ev, g[i]? = some e ∧ p[i]? = some n ∧
          n.count? = some v ∧ e.count? = some ev ∧ ¬ v = ev) ∧
    (∀ (g p : List Column) (i : Nat) (v : String),
        RegionWrite.itemsWrite i v ∈ (updateTaskGrid g p).2 →
        ∃ e n ev, g[i]? = some e ∧ p[i]? = some n ∧
          n.items? = some v ∧ e.items? = some ev ∧ ¬ v = ev) ∧
    (∀ (g p : List Column) (i : Nat), p[i]? = none →
        ((updateTaskGrid g p).1)[i]? = g[i]?) ∧
    (∀ g : List Column, updateTaskGrid g g = (g, [])) ∧
    (∀ g p : List Column,
        updateTaskGrid (updateTaskGrid g p).1 p = ((updateTaskGrid g p).1, [])) ∧
    (∀ (render : TaskStatus → Task → String) (g : List Column) (ts : List Task),
        (updateTaskGridFromRestData render (updateTaskGridFromRestData render g ts).1 ts).1 =
          (updateTaskGridFromRestData render g ts).1) := by
  refine ⟨?_, ?_, ?_, ?_, ?_, fun g => updateColumns_self 0 g,
    fun g p => updateColumns_idem 0 g p,
    fun render g ts => updateColumnsFromRest_idem render ts 0 g⟩
  · intro g p i e n hg hp hcnt
    exact ⟨(updateColumn (0 + i) e n).1,
      updateColumns_getElem_some p g 0 i e n hg hp,
      updateColumn_count_eq (0 + i) e n hcnt⟩
  · intro g p i e n hg hp hitm
    exact ⟨(updateColumn (0 + i) e n).1,
      updateColumns_getElem_some p g 0 i e n hg hp,
      updateColumn_items_eq (0 + i) e n hitm⟩
  · intro g p i v hw
    obtain ⟨j, e, n, hg, hp, hwc⟩ := updateColumns_write_mem p g 0 _ hw
    obtain ⟨hji, hn, ev, hev, hne⟩ := updateColumn_countWrite_mem (0 + j) e n i v hwc
    have hji' : j = i := by omega
    subst hji'
    exact ⟨e, n, ev, hg, hp, hn, hev, hne⟩
  · intro g p i v hw
    obtain ⟨j, e, n, hg, hp, hwc⟩ := updateColumns_write_mem p g 0 _ hw
    obtain ⟨hji, hn, ev, hev, hne⟩ := updateColumn_itemsWrite_mem (0 + j) e n i v hwc
    have hji' : j = i := by omega
    subst hji'
    exact ⟨e, n, ev, hg, hp, hn, hev, hne⟩
  · intro g p i hp
    exact updateColumns_getElem_frame p g 0 i hp

/-- Witness: the amended C5 on a concrete mixed patch — region 0 identical
(count and items both untouched, no writes carry index 0), region 1
different (its fired count write is backed by a genuinely differing pair),
and an index beyond the patch untouched. -/
theorem patch_equality_gating_spec_witness :
    (∃ c, ((updateTaskGrid mixedGrid mixedPatch).1)[0]? = some c ∧
        c.count? = some "1") ∧
    (∃ c, ((updateTaskGrid mixedGrid mixedPatch).1)[0]? = some c ∧
        c.items? = some "A") ∧
    (∃ e n ev, mixedGrid[1]? = some e ∧ mixedPatch[1]? = some n ∧
        n.count? = some "3" ∧ e.count? = some ev ∧ ¬ "3" = ev) ∧
    (∃ e n ev, mixedGrid[1]? = some e ∧ mixedPatch[1]? = some n ∧
        n.items? = some "C" ∧ e.items? = some ev ∧ ¬ "C" = ev) ∧
    ((updateTaskGrid mixedGrid mixedPatch).1)[2]? = mixedGrid[2]? :=
  ⟨patch_equality_gating_spec.1 mixedGrid mixedPatch 0 _ _ rfl rfl rfl,
   patch_equality_gating_spec.2.1 mixedGrid mixedPatch 0 _ _ rfl rfl rfl,
   patch_equality_gating_spec.2.2.1 mixedGrid mixedPatch 1 "3" (by decide),
   patch_equality_gating_spec.2.2.2.1 mixedGrid mixedPatch 1 "C" (by decide),
   patch_equality_gating_spec.2.2.2.2.1 mixedGrid mixedPatch 2 (by decide)⟩

/-! ## C6 -/

/-- C6 counterexample: a parseable message that is missing the required
`type` field (the JSON object with neither `type` nor `html`) is silently
ignored: the handler emits only the ordinary received log — no
`messageParseError` or any other error report — contradicting the claim
that malformed payloads are reported.  The replica is indeed unchanged. -/
theorem malformed_without_report :
    onmessage (fun h => some h) (fun _ => [])
        (some { type? := none, html? := none }) page0 =
      (page0, [Report.messageReceived none]) ∧
    Report.messageParseError ∉
      (onmessage (fun h => some h) (fun _ => [])
          (some { type? := none, html? := none }) page0).2 := by
  exact ⟨rfl, by decide⟩

/-- C6 (amended): an unparseable payload (JSON.parse throws) is reported
via the parse-error log and dropped with the whole page state unchanged; a
parseable payload whose `type` is missing or unrecognized, and a
`task_grid_update` without an `html` field, are dropped silently — state
unchanged but no error report; the handler never modifies the supervisor
connection state on any input; and a `full_page_load` without an `html`
field is not rejected — the handler parses the string rendering
`"undefined"` of the missing field and replaces the body with whatever the
HTML parser extracts from it. -/
theorem malformed_handling_spec :
    (∀ (pb : String → Option String) (pc : String → List Column) (p : Page),
        onmessage pb pc none p = (p, [.messageParseError])) ∧
    (∀ (pb : String → Option String) (pc : String → List Column) (p : Page)
        (m : InboundMsg), m.type? ≠ some "full_page_load" →
        m.type? ≠ some "task_grid_update" →
        onmessage pb pc (some m) p = (p, [.messageReceived m.type?])) ∧
    (∀ (pb : String → Option String) (pc : String → List Column) (p : Page),
        onmessage pb pc (some { type? := some "task_grid_update", html? := none }) p =
          (p, [.messageReceived (some "task_grid_update"), .taskGridUpdate])) ∧
    (∀ (pb : String → Option String) (pc : String → List Column)
        (msg : Option InboundMsg) (p : Page),
        ((onmessage pb pc msg p).1).sup = p.sup) ∧
    (∀ (pb : String → Option String) (pc : String → List Column) (p : Page)
        (b : String), pb "undefined" = some b →
        ((onmessage pb pc
            (some { type? := some "full_page_load", html? := none }) p).1).body = b) := by
  refine ⟨fun pb pc p => rfl, ?_, ?_, ?_, ?_⟩
  · intro pb pc p m h1 h2
    simp only [onmessage]
    rw [if_neg h1, if_neg h2]
  · intro pb pc p
    rfl
  · intro pb pc msg p
    cases msg with
    | none => rfl
    | some m =>
      simp only [onmessage]
      by_cases h1 : m.type? = some "full_page_load"
      · rw [if_pos h1]
        cases pb (m.html?.getD "undefined") <;> rfl
      · rw [if_neg h1]
        by_cases h2 : m.type? = some "task_grid_update"
        · rw [if_pos h2]
          cases hh : m.html? with
          | none => rfl
          | some h => by_cases he : h = "" <;> simp [he]
        · rw [if_neg h2]
  · intro pb pc p b hb
    have hred : onmessage pb pc (some { type? := some "full_page_load", html? := none }) p =
        (match pb "undefined" with
         | some newBody =>
           ({ p with body := newBody },
            [.messageReceived (some "full_page_load"), .fullPageLoad])
         | none =>
           (p, [.messageReceived (some "full_page_load"), .fullPageLoad,
                .fullPageParseFailed])) := rfl
    rw [hred, hb]

/-- Witness: the amended C6 at concrete inputs — an unknown-type message is
dropped without an error report, and a `full_page_load` with no `html`
field replaces the body with the parse of the string `"undefined"`. -/
theorem malformed_handling_spec_witness :
    onmessage (fun h => some h) (fun _ => [])
        (some { type? := some "bogus", html? := none }) page0 =
      (page0, [Report.messageReceived (some "bogus")]) ∧
    ((onmessage (fun h => some h) (fun _ => [])
        (some { type? := some "full_page_load", html? := none }) page0).1).body =
      "undefined" :=
  ⟨malformed_handling_spec.2.1 (fun h => some h) (fun _ => []) page0
      { type? := some "bogus", html? := none } (by decide) (by decide),
   malformed_handling_spec.2.2.2.2 (fun h => some h) (fun _ => []) page0 "undefined" rfl⟩

end LiveView
